import Mathlib

/-!
Formal model of the capture/recording pipeline orchestration implemented in
`src/main.rs` of the egui-video-stream application.

Pure computations (PiP size snapping, pixel lookup, texture-update gating,
pipeline-string construction, device-list shaping) are translated directly
from the source.  The stateful orchestration (`start_recording`,
`stop_recording`, `switch_mic`, the mic-toggle branch of `update`, and
`switch_source`) is embedded as explicit state passing over an `AppState`
record.  GStreamer pipelines are represented by a registry of identifiers,
each carrying its element state (`Playing`/`Null`), the frame-buffer arc it
pulls frames from (for recording pipelines), and its output file, so that
teardown, finalization and leakage of pipeline handles are observable.
Results of external backend calls (display enumeration, the device monitor's
device list, caps arriving on a sink pad, parse/state-transition success) are
parameters of the corresponding functions.

Byte buffers are modelled as `List Nat`; `i32` values as `Int` (all arithmetic
performed on them in the modelled code paths stays far from the `i32` range);
the Rust `as usize` cast on nonnegative quantities is modelled by `Int.toNat`.
-/

/-- State of a GStreamer pipeline as driven by `set_state` calls: the model
only distinguishes a started pipeline from one torn down to `Null`
(tearing down to `Null` is what finalizes a recording's output file). -/
inductive GstState
  | Playing
  | Null
deriving DecidableEq, Repr

/-- Registry entry for one created pipeline: its element state, the
frame-data arc its appsrc callback copies from (`none` for capture
pipelines, which write rather than read), and its filesink output file. -/
structure PipeInfo where
  gst : GstState
  src : Option Nat
  output : Option String
deriving DecidableEq, Repr

/-- The fields of `ScreenCapApp` that the orchestration paths under
verification read or write.  Arc identities (`frame_data`, `dimensions`,
`pip_frame_data`) are modelled as numeric identifiers so that wholesale
replacement is observable.  `pipes` is the registry of every pipeline
created so far, keyed by identifier; identifiers are allocated from
`nextId`.  Note `pipeline` (the main capture slot) is not optional,
exactly as `ScreenCapApp.pipeline : gst::Pipeline` is not optional. -/
structure AppState where
  nextId : Nat
  pipes : List (Nat × PipeInfo)
  pipeline : Nat
  frame_data : Nat
  dimensions : Nat
  video_devices : Nat
  current_device_idx : Option Nat
  current_mic_idx : Option Nat
  is_mic_enabled : Bool
  is_recording : Bool
  show_pip : Bool
  pip_frame_data : Nat
  pip_pipeline : Option Nat
  recording_pipeline : Option Nat
  recording_files : Option (String × String × String)
deriving DecidableEq, Repr

/-- `set_state` on the pipeline registered under `p`: every registry entry
with that key has its element state replaced. -/
def setPipe (ps : List (Nat × PipeInfo)) (p : Nat) (g : GstState) :
    List (Nat × PipeInfo) :=
  ps.map fun e => if e.1 = p then (e.1, { e.2 with gst := g }) else e

/-- Association lookup in the pipeline registry. -/
def lookupPipe (p : Nat) : List (Nat × PipeInfo) → Option PipeInfo
  | [] => none
  | e :: t => if e.1 = p then some e.2 else lookupPipe p t

/-- Element state of the pipeline registered under `p`, if any. -/
def pipeState (st : AppState) (p : Nat) : Option GstState :=
  (lookupPipe p st.pipes).map (fun i => i.gst)

/-- `format!("recording_{}_main.mkv", timestamp)` from `start_recording`. -/
def mainVideoName (ts : String) : String :=
  "recording_" ++ ts ++ "_main.mkv"

/-- `format!("recording_{}_pip.mkv", timestamp)` from `start_recording`. -/
def pipVideoName (ts : String) : String :=
  "recording_" ++ ts ++ "_pip.mkv"

/-- `format!("recording_{}.mkv", timestamp)` from `start_recording`. -/
def finalVideoName (ts : String) : String :=
  "recording_" ++ ts ++ ".mkv"

/-- The microphone-capture branch of the main recording pipeline string in
`start_recording` (`osxaudiosrc` through the muxer pad). -/
def audio_branch : String :=
  "osxaudiosrc ! audioconvert ! audioresample ! audio/x-raw,rate=44100,channels=2 ! avenc_aac bitrate=320000 ! queue ! mux."

/-- The `main_pipeline_str` format string of `start_recording` after
substituting the output filename (Rust `\`-newline escapes collapse each
line break and following indentation, leaving the single spaces kept here). -/
def main_recording_pipeline_str (main_video : String) : String :=
  "appsrc name=video_src format=time is-live=true do-timestamp=true ! videoconvert ! video/x-raw,format=I420 ! x264enc tune=zerolatency speed-preset=slower bitrate=8000 key-int-max=60 ! matroskamux name=mux ! filesink location="
    ++ main_video ++ " " ++ audio_branch

/-- The `pip_pipeline_str` format string of `start_recording` after
substituting the output filename. -/
def pip_recording_pipeline_str (pip_video : String) : String :=
  "appsrc name=pip_src format=time is-live=true do-timestamp=true ! videoconvert ! video/x-raw,format=I420 ! x264enc tune=zerolatency speed-preset=slower bitrate=4000 key-int-max=60 ! matroskamux ! filesink location="
    ++ pip_video

/-- The pipeline description strings `start_recording` hands to
`gst::parse::launch`: the main one, and the PiP one when PiP is shown.
`start_recording` has `self.is_mic_enabled` in scope but never reads it,
which the unused first parameter mirrors. -/
def start_recording_pipeline_strs (is_mic_enabled : Bool) (show_pip : Bool)
    (ts : String) : String × Option String :=
  (main_recording_pipeline_str (mainVideoName ts),
   if show_pip then some (pip_recording_pipeline_str (pipVideoName ts)) else none)

/-- `ScreenCapApp::start_recording` (success path; `gst::parse::launch` and
`set_state` failures abort via `?` and are outside this model).  A main
recording pipeline is created, its appsrc callback reading `frame_data`,
and — when PiP is shown — a second recording pipeline reading
`pip_frame_data` with its own output file.  Both are set to `Playing`.
In the source the PiP recording pipeline handle is a local variable that is
dropped at the end of the function: only the main handle is stored, in
`self.recording_pipeline`; accordingly here the PiP recording pipeline
exists in the registry but is referenced by no field. -/
def start_recording (ts : String) (st : AppState) : AppState :=
  let mainId := st.nextId
  let mainPipe : PipeInfo :=
    { gst := GstState.Playing, src := some st.frame_data,
      output := some (mainVideoName ts) }
  if st.show_pip then
    let pipPipe : PipeInfo :=
      { gst := GstState.Playing, src := some st.pip_frame_data,
        output := some (pipVideoName ts) }
    { st with
      nextId := mainId + 2,
      pipes := (mainId, mainPipe) :: (mainId + 1, pipPipe) :: st.pipes,
      recording_pipeline := some mainId,
      recording_files :=
        some (mainVideoName ts, pipVideoName ts, finalVideoName ts),
      is_recording := true }
  else
    { st with
      nextId := mainId + 1,
      pipes := (mainId, mainPipe) :: st.pipes,
      recording_pipeline := some mainId,
      recording_files :=
        some (mainVideoName ts, pipVideoName ts, finalVideoName ts),
      is_recording := true }

/-- `ScreenCapApp::stop_recording`.  When `recording_files` is present it is
taken, the pipeline held in `recording_pipeline` is set to `Null`, and the
pipeline held in `pip_pipeline` — which the rest of the program uses as the
PiP *capture* pipeline slot — is taken and set to `Null`.  `is_recording`
is cleared unconditionally. -/
def stop_recording (st : AppState) : AppState :=
  match st.recording_files with
  | some _ =>
    let pipes1 :=
      match st.recording_pipeline with
      | some p => setPipe st.pipes p GstState.Null
      | none => st.pipes
    let pipes2 :=
      match st.pip_pipeline with
      | some q => setPipe pipes1 q GstState.Null
      | none => pipes1
    { st with
        pipes := pipes2,
        recording_pipeline := none,
        pip_pipeline := none,
        recording_files := none,
        is_recording := false }
  | none => { st with is_recording := false }

/-- `ScreenCapApp::switch_mic`: record the new index, and if a recording is
in progress, stop it and start a new one (whose filenames come from a
freshly taken timestamp `ts2`). -/
def switch_mic (idx : Nat) (ts2 : String) (st : AppState) : AppState :=
  let st1 := { st with current_mic_idx := some idx }
  if st1.is_recording then start_recording ts2 (stop_recording st1) else st1

/-- The microphone-enablement checkbox handler in `ScreenCapApp::update`:
when the checkbox value differs from `is_mic_enabled`, store it and, if
recording, stop and restart the recording. -/
def set_mic_enabled (e : Bool) (ts2 : String) (st : AppState) : AppState :=
  if e != st.is_mic_enabled then
    let st1 := { st with is_mic_enabled := e }
    if st1.is_recording then start_recording ts2 (stop_recording st1) else st1
  else st

/-- Whether `setup_gstreamer(device_idx)` succeeds: the in-source guard is
`device_idx >= devices.len()` with `devices.len() = numDisplays + 1`
(FaceTime camera plus one entry per display); `backendOk` stands for the
external `gst::parse::launch` / `set_state(Playing)` calls succeeding. -/
def setup_gstreamer_ok (numDisplays device_idx : Nat) (backendOk : Bool) :
    Bool :=
  decide (device_idx < numDisplays + 1) && backendOk

/-- `ScreenCapApp::switch_source`: the current pipeline is set to `Null`
first (an error there is only printed); then `setup_gstreamer(device_idx)`
either succeeds — yielding a fresh pipeline (set to `Playing`), a fresh
`frame_data` arc and a fresh `dimensions` arc that replace the slots
together with the device list and index — or fails, in which case the error
is only printed (`switch_source` returns `()`) and every slot keeps its old
value, including the now-stopped stale pipeline. -/
def switch_source (st : AppState) (numDisplays device_idx : Nat)
    (backendOk : Bool) : AppState :=
  let st1 := { st with pipes := setPipe st.pipes st.pipeline GstState.Null }
  if setup_gstreamer_ok numDisplays device_idx backendOk then
    let pid := st1.nextId
    { st1 with
      nextId := pid + 3,
      pipes := (pid, { gst := GstState.Playing, src := none, output := none })
        :: st1.pipes,
      pipeline := pid,
      frame_data := pid + 1,
      dimensions := pid + 2,
      video_devices := numDisplays + 1,
      current_device_idx := some device_idx }
  else st1

/-- `MediaDeviceKind` from the source. -/
inductive MediaDeviceKind
  | AudioInput
  | AudioOutput
  | VideoInput
deriving DecidableEq, Repr

/-- `MediaDeviceInfo` from the source. -/
structure MediaDeviceInfo where
  pipeline_id : Nat
  kind : MediaDeviceKind
  label : String
  setup_pipeline : String
  device_id : Option String
deriving DecidableEq, Repr

/-- The `CAMERA_PIPELINE` constant. -/
def CAMERA_PIPELINE : String :=
  "avfvideosrc device-index=0 ! video/x-raw,width=1280,height=720,framerate=30/1 ! videoconvert ! video/x-raw,format=RGBA,width=1280,height=720 ! queue leaky=downstream max-size-buffers=1 ! appsink name=sink sync=false drop=true max-buffers=1 emit-signals=true"

/-- `SCREEN_PIPELINE.replace` of the display index into the
`device-index=` placeholder. -/
def screen_pipeline_for (i : Nat) : String :=
  "avfvideosrc capture-screen=true capture-screen-cursor=true device-index="
    ++ toString i
    ++ " ! videoconvert ! video/x-raw,format=RGBA,framerate=60/1 ! queue leaky=downstream max-size-buffers=1 ! appsink name=sink sync=false drop=true max-buffers=1 emit-signals=true"

/-- The video device list built at the top of `setup_gstreamer`: the
synthesized FaceTime camera entry followed by one entry per active display.
A display is represented by its formatted pixel-bounds string (only used in
the label). -/
def video_device_list (displays : List String) : List MediaDeviceInfo :=
  { pipeline_id := 0, kind := MediaDeviceKind.VideoInput,
    label := "FaceTime Camera", setup_pipeline := CAMERA_PIPELINE,
    device_id := none }
    :: displays.enum.map fun e =>
      { pipeline_id := e.1 + 1, kind := MediaDeviceKind.VideoInput,
        label := "Display " ++ toString (e.1 + 1) ++ " (" ++ e.2 ++ ")",
        setup_pipeline := screen_pipeline_for e.1, device_id := none }

/-- Video-source enumeration as performed by `setup_gstreamer`:
`CGDisplay::active_displays()` is consumed through `.expect`, so a backend
error (modelled by `none`) panics — no device list is ever returned on that
path, modelled by a `none` result. -/
def enumerate_video_devices (displays : Option (List String)) :
    Option (List MediaDeviceInfo) :=
  displays.map video_device_list

/-- What the capture sink's caps looked like when dimensions were read:
either no sample arrived during the 100 ms startup wait (the dimensions
stay at their initial `0x0`), or a sample arrived whose caps had no
`structure(0)`, or one with a structure whose `width`/`height` fields may
individually be missing. -/
inductive SampleCaps
  | noSample
  | noStructure
  | fields (width height : Option Int)
deriving DecidableEq, Repr

/-- The dimensions `setup_gstreamer` ends up with: the callback writes
them from the caps (`unwrap_or(1280)` / `unwrap_or(720)` per field, or
`1280x720` outright when the caps have no structure), and after the startup
wait any remaining zero width or height is replaced by `1280x720`. -/
def negotiated_dims (c : SampleCaps) : Int × Int :=
  let dims : Int × Int :=
    match c with
    | SampleCaps.noSample => (0, 0)
    | SampleCaps.noStructure => (1280, 720)
    | SampleCaps.fields w h => (w.getD 1280, h.getD 720)
  if dims.1 = 0 ∨ dims.2 = 0 then (1280, 720) else dims

/-- Dimension negotiation as `setup_gstreamer` performs it, including its
device-index guard: an index at or beyond the device-list length returns
`Err("Invalid device index")`; otherwise the negotiated dimensions are
produced as above. -/
def setup_gstreamer_dims (displays : List String) (device_idx : Nat)
    (c : SampleCaps) : Except String (Int × Int) :=
  if (video_device_list displays).length ≤ device_idx then
    Except.error "Invalid device index"
  else
    Except.ok (negotiated_dims c)

/-- One device as reported by the GStreamer `DeviceMonitor`:
its device-class string, display name, and — when a property bag is
present — the result of looking up `device.id` in it. -/
structure BackendDevice where
  device_class : String
  display_name : String
  props : Option (Option String)
deriving DecidableEq, Repr

/-- Whether `pat` occurs at the head of `s`. -/
def isPrefixList : List Char → List Char → Bool
  | [], _ => true
  | _ :: _, [] => false
  | a :: as, b :: bs => a == b && isPrefixList as bs

/-- Whether `pat` occurs anywhere in `s`. -/
def containsSubAux (pat : List Char) : List Char → Bool
  | [] => isPrefixList pat []
  | c :: rest => isPrefixList pat (c :: rest) || containsSubAux pat rest

/-- `str::contains` on the underlying character lists. -/
def strContainsSub (s pat : String) : Bool :=
  containsSubAux pat.data s.data

/-- The synthesized fallback entry of `get_audio_devices`. -/
def default_microphone : MediaDeviceInfo :=
  { pipeline_id := 0, kind := MediaDeviceKind.AudioInput,
    label := "Default Microphone", setup_pipeline := "", device_id := none }

/-- `get_audio_devices`: the result of `monitor.start()` is discarded
(`let _ = monitor.start();`), which the unused `startOk` parameter mirrors;
monitor devices whose class contains `"Audio/Source"` are kept (with
`device_id` falling back to the display name when a property bag is present
but has no `device.id`), and if none qualify a default microphone entry is
synthesized. -/
def get_audio_devices (startOk : Bool) (backend : List BackendDevice) :
    List MediaDeviceInfo :=
  let devices := backend.foldl
    (fun acc d =>
      if strContainsSub d.device_class "Audio/Source" then
        let device_id :=
          match d.props with
          | some propId => some (propId.getD d.display_name)
          | none => none
        acc ++ [{ pipeline_id := acc.length, kind := MediaDeviceKind.AudioInput,
                  label := d.display_name, setup_pipeline := "",
                  device_id := device_id }]
      else acc)
    []
  if devices.isEmpty then [default_microphone] else devices

/-- The `width`/`height` fields of a caps structure as read with
`s.get::<i32>(..)`. -/
structure CapsFields where
  width : Option Int
  height : Option Int
deriving DecidableEq, Repr

/-- The `new_sample` callback installed by `setup_gstreamer` on the main
appsink, acting on the pair (dimensions, frame data).  When the dimension
channel has a message, the caps are required (`ok_or(FlowError)?` — a
missing caps aborts the callback, modelled by `none`, without installing
the frame) and the dimensions are rewritten from them; then the delivered
buffer bytes replace the frame data wholesale.  No size check is made. -/
def new_sample_main (dimsW dimsH : Int) (frame : Option (List Nat))
    (rxHasMsg : Bool) (caps : Option (Option CapsFields)) (bytes : List Nat) :
    Option ((Int × Int) × Option (List Nat)) :=
  if rxHasMsg then
    match caps with
    | none => none
    | some capsStruct =>
      let wh : Int × Int :=
        match capsStruct with
        | some f => (f.width.getD 1280, f.height.getD 720)
        | none => (1280, 720)
      some (wh, some bytes)
  else
    some ((dimsW, dimsH), some bytes)

/-- The `new_sample` callback installed by `setup_pip_webcam` on the PiP
appsink: dimensions are rewritten from the caps when present
(`unwrap_or(1280)` / `unwrap_or(720)`), and the delivered buffer bytes
replace the PiP frame data wholesale.  No size check is made. -/
def new_sample_pip (dimsW dimsH : Int) (frame : Option (List Nat))
    (caps : Option (Option CapsFields)) (bytes : List Nat) :
    (Int × Int) × Option (List Nat) :=
  let wh : Int × Int :=
    match caps with
    | some (some f) => (f.width.getD 1280, f.height.getD 720)
    | _ => (dimsW, dimsH)
  (wh, some bytes)

/-- The frame-to-texture step of `ScreenCapApp::update` for one stream: when
a frame is present and its byte length equals `width*height*4` the texture
is replaced by the image rendered from the buffer (modelled as the buffer
with its dimensions); otherwise the previous texture is left unchanged. -/
def load_texture_from_frame (texture : Option (List Nat × Int × Int))
    (frame : Option (List Nat)) (w h : Int) :
    Option (List Nat × Int × Int) :=
  match frame with
  | some buffer =>
    if buffer.length = (w * h * 4).toNat then some (buffer, w, h) else texture
  | none => texture

/-- The PiP variant of the frame-to-texture step: it only runs when
`show_pip` is set. -/
def update_pip_texture (show_pip : Bool)
    (texture : Option (List Nat × Int × Int)) (frame : Option (List Nat))
    (w h : Int) : Option (List Nat × Int × Int) :=
  if show_pip then load_texture_from_frame texture frame w h else texture

/-- Width snapping from `update_pip_size`:
`((self.pip_size.x as i32 + 8) / 16) * 16`. -/
def snap_pip_width (x : Int) : Int :=
  ((x + 8) / 16) * 16

/-- Height derivation from `update_pip_size`: `width * 9 / 16`. -/
def derive_pip_height (width : Int) : Int :=
  width * 9 / 16

/-- The full size computation of `update_pip_size`: snap the width, derive
the 16:9 height, then clamp both to the `320x180` minimum.  The requested
height (`pip_size.y`) is never read. -/
def update_pip_size_dims (x : Int) : Int × Int :=
  let width := snap_pip_width x
  let height := derive_pip_height width
  let width2 := max width 320
  let height2 := max height 180
  (width2, height2)

/-- The body of the `map` closure in `ScreenCapApp::get_pixel`: the four
unchecked indexings `[frame[idx], frame[idx+1], frame[idx+2], frame[idx+3]]`.
A `none` result models the indexing panic on an out-of-bounds access. -/
def get_pixel_read (f : List Nat) (idx : Nat) : Option (Option (List Nat)) :=
  match f.get? idx, f.get? (idx + 1), f.get? (idx + 2), f.get? (idx + 3) with
  | some a, some b, some c, some d => some (some [a, b, c, d])
  | _, _, _, _ => none

/-- `ScreenCapApp::get_pixel`.  The outer `none` models the `frame[idx]`
indexing panic (the source indexes the buffer without a bound check);
`some r` is a normal return of `r`.  The bounds test and the index
expression `((y * width + x) * 4) as usize` are as in the source. -/
def get_pixel (width height : Int) (frame : Option (List Nat)) (x y : Int) :
    Option (Option (List Nat)) :=
  if x < 0 ∨ width ≤ x ∨ y < 0 ∨ height ≤ y then some none
  else
    match frame with
    | none => some none
    | some f => get_pixel_read f ((y * width + x) * 4).toNat

/-- What a correct mid-recording restart leaves behind, relative to the
pre-restart state `stOld` whose recording pipeline was `p` and whose
filenames were generated from `ts1`: the old recording pipeline has been
set to `Null` (file finalized), the new recording uses filenames generated
from `ts2` — distinct from the old ones — and a new recording pipeline is
playing into the new main file, fed from the same frame-data arc. -/
def RestartOutcome (stOld st' : AppState) (p : Nat) (ts1 ts2 : String) :
    Prop :=
  (∃ i, lookupPipe p st'.pipes = some i ∧ i.gst = GstState.Null) ∧
  st'.recording_files =
    some (mainVideoName ts2, pipVideoName ts2, finalVideoName ts2) ∧
  mainVideoName ts2 ≠ mainVideoName ts1 ∧
  st'.is_recording = true ∧
  st'.recording_pipeline = some stOld.nextId ∧
  (∃ j, lookupPipe stOld.nextId st'.pipes = some j ∧
    j.gst = GstState.Playing ∧ j.output = some (mainVideoName ts2) ∧
    j.src = some stOld.frame_data)

/-- A concrete application state with the main capture pipeline (id 0)
playing, the PiP capture pipeline (id 1) playing, and no recording active. -/
def stExample : AppState :=
  { nextId := 200,
    pipes := [(0, { gst := GstState.Playing, src := none, output := none }),
              (1, { gst := GstState.Playing, src := none, output := none })],
    pipeline := 0,
    frame_data := 100,
    dimensions := 101,
    video_devices := 3,
    current_device_idx := some 0,
    current_mic_idx := some 0,
    is_mic_enabled := true,
    is_recording := false,
    show_pip := true,
    pip_frame_data := 102,
    pip_pipeline := some 1,
    recording_pipeline := none,
    recording_files := none }

/-- A concrete application state in which a recording started with
timestamp `20260101_000000` is in progress: the main capture pipeline is
id 0 and the recording pipeline id 2 plays into the main output file. -/
def stRec : AppState :=
  { nextId := 300,
    pipes := [(0, { gst := GstState.Playing, src := none, output := none }),
              (2, { gst := GstState.Playing, src := some 100,
                    output := some (mainVideoName "20260101_000000") })],
    pipeline := 0,
    frame_data := 100,
    dimensions := 101,
    video_devices := 3,
    current_device_idx := some 0,
    current_mic_idx := some 0,
    is_mic_enabled := true,
    is_recording := true,
    show_pip := false,
    pip_frame_data := 102,
    pip_pipeline := none,
    recording_pipeline := some 2,
    recording_files := some (mainVideoName "20260101_000000",
      pipVideoName "20260101_000000", finalVideoName "20260101_000000") }

theorem string_data_append (s t : String) : (s ++ t).data = s.data ++ t.data := by
  cases s
  cases t
  rfl

theorem mainVideoName_inj {a b : String} (h : mainVideoName a = mainVideoName b) :
    a = b := by
  have hd := congrArg String.data h
  simp only [mainVideoName, string_data_append] at hd
  have h1 := List.append_cancel_right hd
  have h2 := List.append_cancel_left h1
  cases a
  cases b
  exact congrArg String.mk h2

theorem setPipe_nil (p : Nat) (g : GstState) : setPipe [] p g = [] := rfl

theorem setPipe_cons (e : Nat × PipeInfo) (t : List (Nat × PipeInfo)) (p : Nat)
    (g : GstState) :
    setPipe (e :: t) p g =
      (if e.1 = p then (e.1, { e.2 with gst := g }) else e) :: setPipe t p g := by
  simp [setPipe]

theorem lookup_cons_self (k : Nat) (v : PipeInfo) (ps : List (Nat × PipeInfo)) :
    lookupPipe k ((k, v) :: ps) = some v := by
  simp [lookupPipe]

theorem lookup_cons_of_ne {q k : Nat} (v : PipeInfo) (ps : List (Nat × PipeInfo))
    (h : k ≠ q) : lookupPipe q ((k, v) :: ps) = lookupPipe q ps := by
  simp [lookupPipe, h]

theorem lookup_setPipe_self {ps : List (Nat × PipeInfo)} {p : Nat} {i : PipeInfo}
    (g : GstState) (h : lookupPipe p ps = some i) :
    lookupPipe p (setPipe ps p g) = some { i with gst := g } := by
  induction ps with
  | nil => simp [lookupPipe] at h
  | cons e t ih =>
    obtain ⟨k, v⟩ := e
    by_cases hk : k = p
    · subst hk
      have hv : v = i := by simpa [lookupPipe] using h
      subst hv
      simp [setPipe_cons, lookupPipe]
    · have h' : lookupPipe p t = some i := by
        simpa [lookupPipe, hk] using h
      simpa [setPipe_cons, lookupPipe, hk] using ih h'

theorem lookup_setPipe_ne {ps : List (Nat × PipeInfo)} {q p : Nat} (g : GstState)
    (h : q ≠ p) : lookupPipe q (setPipe ps p g) = lookupPipe q ps := by
  induction ps with
  | nil => simp [setPipe_nil]
  | cons e t ih =>
    obtain ⟨k, v⟩ := e
    by_cases hk : k = p
    · subst hk
      have hq2 : ¬ k = q := fun hh => h hh.symm
      simpa [setPipe_cons, lookupPipe, hq2] using ih
    · by_cases hq2 : k = q
      · subst hq2
        simp [setPipe_cons, lookupPipe, hk]
      · simpa [setPipe_cons, lookupPipe, hk, hq2] using ih

theorem lookup_setPipe_null {ps : List (Nat × PipeInfo)} {p : Nat} {i : PipeInfo}
    (q : Nat) (h : lookupPipe p ps = some i) :
    ∃ j, lookupPipe p (setPipe (setPipe ps p GstState.Null) q GstState.Null) =
      some j ∧ j.gst = GstState.Null := by
  by_cases hq : p = q
  · subst hq
    exact ⟨{ { i with gst := GstState.Null } with gst := GstState.Null },
      lookup_setPipe_self GstState.Null (lookup_setPipe_self GstState.Null h),
      rfl⟩
  · refine ⟨{ i with gst := GstState.Null }, ?_, rfl⟩
    rw [lookup_setPipe_ne GstState.Null hq]
    exact lookup_setPipe_self GstState.Null h

/-- Claim C1: the source's `start_recording` builds the main recording
pipeline description without ever consulting `is_mic_enabled`, and the
description always contains the `osxaudiosrc` audio branch; the claim that
a disabled microphone toggle omits the audio branch (and yields a file
without an audio track) is therefore violated at `is_mic_enabled = false`. -/
theorem recording_audio_branch_always_present :
    start_recording_pipeline_strs false false "20260101_000000" =
      start_recording_pipeline_strs true false "20260101_000000" ∧
    ∃ pre, (start_recording_pipeline_strs false false "20260101_000000").1 =
      pre ++ audio_branch := by
  constructor
  · rfl
  · exact ⟨"appsrc name=video_src format=time is-live=true do-timestamp=true ! videoconvert ! video/x-raw,format=I420 ! x264enc tune=zerolatency speed-preset=slower bitrate=8000 key-int-max=60 ! matroskamux name=mux ! filesink location="
      ++ mainVideoName "20260101_000000" ++ " ", rfl⟩

/-- Claim C2: starting a recording while PiP is active does create a second
independent recording pipeline (id 201) against the PiP frame buffer with
its own output file, but stopping the recording does not tear it down: the
handle was dropped by `start_recording`, so `stop_recording` leaves it
`Playing` (its file is never finalized) and instead sets the PiP *capture*
pipeline (id 1, which feeds no recording and has no output file) to `Null`. -/
theorem pip_recording_pipeline_leaked_on_stop :
    lookupPipe 201 (start_recording "20260101_000000" stExample).pipes =
      some { gst := GstState.Playing, src := some 102,
             output := some (pipVideoName "20260101_000000") } ∧
    pipeState (stop_recording (start_recording "20260101_000000" stExample)) 201 =
      some GstState.Playing ∧
    pipeState (stop_recording (start_recording "20260101_000000" stExample)) 1 =
      some GstState.Null ∧
    (stop_recording (start_recording "20260101_000000" stExample)).pip_pipeline =
      none := by
  refine ⟨rfl, rfl, rfl, rfl⟩

/-- Claim C4 (counterexample): a delivered frame of 3 bytes — not matching
`width*height*4` for the current `1280x720` dimensions — is installed into
the frame buffer by both capture callbacks rather than rejected. -/
theorem capture_callback_installs_mismatched_frame :
    new_sample_main 1280 720 none false none [0, 1, 2] =
      some ((1280, 720), some [0, 1, 2]) ∧
    ([0, 1, 2] : List Nat).length ≠ ((1280 : Int) * 720 * 4).toNat ∧
    new_sample_pip 1280 720 none none [0, 1, 2] =
      ((1280, 720), some [0, 1, 2]) := by
  refine ⟨rfl, by decide, rfl⟩

/-- Claim C4 (amended): the capture callbacks install every delivered frame
wholesale, with no size validation against the current dimensions; the only
exit without installing is the main callback's missing-caps error when a
dimension update was requested. -/
theorem capture_callbacks_install_unconditionally :
    ∀ (w h : Int) (fr : Option (List Nat)) (caps : Option (Option CapsFields))
      (bytes : List Nat),
      new_sample_main w h fr false caps bytes = some ((w, h), some bytes) ∧
      (new_sample_pip w h fr caps bytes).2 = some bytes ∧
      ∀ cs, ∃ wh, new_sample_main w h fr true (some cs) bytes =
        some (wh, some bytes) := by
  intro w h fr caps bytes
  refine ⟨rfl, ?_, ?_⟩
  · cases caps with
    | none => rfl
    | some c =>
      cases c with
      | none => rfl
      | some f => rfl
  · intro cs
    cases cs with
    | none => exact ⟨(1280, 720), rfl⟩
    | some f => exact ⟨(f.width.getD 1280, f.height.getD 720), rfl⟩

/-- Claim C5 (counterexample): negotiating dimensions for device index 5
when only 2 displays exist (device list length 3) yields
`Err("Invalid device index")`, not the claimed `1920x1080` fallback. -/
theorem display_index_five_of_two_errors :
    setup_gstreamer_dims ["3456x2234", "2560x1440"] 5 SampleCaps.noSample =
      Except.error "Invalid device index" ∧
    setup_gstreamer_dims ["3456x2234", "2560x1440"] 5 SampleCaps.noSample ≠
      Except.ok (1920, 1080) := by
  refine ⟨rfl, fun h => ?_⟩
  rw [show setup_gstreamer_dims ["3456x2234", "2560x1440"] 5 SampleCaps.noSample =
    Except.error "Invalid device index" from rfl] at h
  cases h

/-- Claim C5 (amended): an out-of-range device index makes `setup_gstreamer`
return an error instead of any dimension fallback; the fallback dimensions,
used for a valid device whose caps are absent or report zero, are
`1280x720`, and the device list holds one entry per display plus the
camera. -/
theorem setup_dims_out_of_range_error :
    ∀ (displays : List String) (idx : Nat) (c : SampleCaps),
      ((video_device_list displays).length ≤ idx →
        setup_gstreamer_dims displays idx c =
          Except.error "Invalid device index") ∧
      (idx < (video_device_list displays).length →
        setup_gstreamer_dims displays idx c = Except.ok (negotiated_dims c)) ∧
      negotiated_dims SampleCaps.noSample = (1280, 720) ∧
      (video_device_list displays).length = displays.length + 1 := by
  intro displays idx c
  refine ⟨fun h => ?_, fun h => ?_, rfl, ?_⟩
  · unfold setup_gstreamer_dims
    rw [if_pos h]
  · unfold setup_gstreamer_dims
    rw [if_neg (not_le.mpr h)]
  · simp [video_device_list, List.length_map, List.enum_length]

theorem setup_dims_out_of_range_error_witness :
    setup_gstreamer_dims ["800x600"] 7 SampleCaps.noStructure =
      Except.error "Invalid device index" :=
  (setup_dims_out_of_range_error ["800x600"] 7 SampleCaps.noStructure).1
    (by decide)

/-- Claim C6 (counterexample): video-source enumeration does not absorb a
backend failure — `CGDisplay::active_displays()` is unwrapped with
`.expect`, so on a backend error no descriptor list is returned at all
(the process panics). -/
theorem video_enumeration_aborts_on_backend_error :
    ¬ ∃ l, enumerate_video_devices none = some l := by
  rintro ⟨l, h⟩
  simp [enumerate_video_devices] at h

/-- Claim C6 (amended): audio-device enumeration absorbs backend errors —
the monitor start result is discarded and an empty filter result is
replaced by a default microphone, so a nonempty list is always returned —
but video-source enumeration panics on a display-enumeration error, and
otherwise returns the synthesized camera plus one descriptor per display. -/
theorem enumeration_fail_soft_split :
    ∀ (startOk : Bool) (backend : List BackendDevice)
      (displays : List String),
      get_audio_devices startOk backend = get_audio_devices true backend ∧
      1 ≤ (get_audio_devices startOk backend).length ∧
      enumerate_video_devices none = none ∧
      ∃ l, enumerate_video_devices (some displays) = some l ∧
        l.length = displays.length + 1 := by
  intro startOk backend displays
  refine ⟨rfl, ?_, rfl, ⟨video_device_list displays, rfl, ?_⟩⟩
  · have hgen : ∀ (l : List MediaDeviceInfo),
        1 ≤ (if l.isEmpty then [default_microphone] else l).length := by
      intro l
      cases l <;> simp
    exact hgen _
  · simp [video_device_list, List.length_map, List.enum_length]

/-- Claim C8: requesting a PiP size of `300x200` snaps the width to `304`,
derives the 16:9 height `171`, and clamps to the `320x180` minimum, so the
configured size is `320x180`. -/
theorem pip_resize_300_yields_min_320x180 :
    snap_pip_width 300 = 304 ∧ derive_pip_height 304 = 171 ∧
    update_pip_size_dims 300 = (320, 180) := by
  decide

/-- Claim C9: on an update cycle the preview texture (main or PiP) is
replaced from the shared frame buffer exactly when the present frame's byte
length equals `width*height*4`; a present frame of any other length — or an
absent frame, or a hidden PiP — leaves the previously loaded texture
unchanged. -/
theorem preview_texture_exact_size_gate :
    ∀ (tex : Option (List Nat × Int × Int)) (buffer : List Nat) (w h : Int),
      (buffer.length = (w * h * 4).toNat →
        load_texture_from_frame tex (some buffer) w h = some (buffer, w, h) ∧
        update_pip_texture true tex (some buffer) w h = some (buffer, w, h)) ∧
      (buffer.length ≠ (w * h * 4).toNat →
        load_texture_from_frame tex (some buffer) w h = tex ∧
        update_pip_texture true tex (some buffer) w h = tex) ∧
      load_texture_from_frame tex none w h = tex ∧
      update_pip_texture false tex (some buffer) w h = tex := by
  intro tex buffer w h
  refine ⟨fun hlen => ?_, fun hlen => ?_, rfl, rfl⟩
  · simp [load_texture_from_frame, update_pip_texture, hlen]
  · simp [load_texture_from_frame, update_pip_texture, hlen]

theorem preview_texture_exact_size_gate_witness :
    load_texture_from_frame (some ([5, 5, 5, 5], 1, 1)) (some [1, 2, 3]) 1 1 =
      some ([5, 5, 5, 5], 1, 1) ∧
    load_texture_from_frame none (some [9, 9, 9, 9]) 1 1 =
      some ([9, 9, 9, 9], 1, 1) :=
  ⟨((preview_texture_exact_size_gate (some ([5, 5, 5, 5], 1, 1))
      [1, 2, 3] 1 1).2.1 (by decide)).1,
   ((preview_texture_exact_size_gate none [9, 9, 9, 9] 1 1).1 (by decide)).1⟩

theorem start_recording_facts (M : AppState) (ts2 : String) :
    (start_recording ts2 M).recording_files =
      some (mainVideoName ts2, pipVideoName ts2, finalVideoName ts2) ∧
    (start_recording ts2 M).is_recording = true ∧
    (start_recording ts2 M).recording_pipeline = some M.nextId ∧
    lookupPipe M.nextId (start_recording ts2 M).pipes =
      some { gst := GstState.Playing, src := some M.frame_data,
             output := some (mainVideoName ts2) } ∧
    ∀ p, p < M.nextId →
      lookupPipe p (start_recording ts2 M).pipes = lookupPipe p M.pipes := by
  cases hsp : M.show_pip with
  | false =>
    have he : start_recording ts2 M = { M with
        nextId := M.nextId + 1,
        pipes := (M.nextId,
          { gst := GstState.Playing, src := some M.frame_data,
            output := some (mainVideoName ts2) }) :: M.pipes,
        recording_pipeline := some M.nextId,
        recording_files :=
          some (mainVideoName ts2, pipVideoName ts2, finalVideoName ts2),
        is_recording := true } := by
      simp [start_recording, hsp]
    rw [he]
    refine ⟨rfl, rfl, rfl, lookup_cons_self _ _ _, ?_⟩
    intro p hp
    exact lookup_cons_of_ne _ _ (Nat.ne_of_gt hp)
  | true =>
    have he : start_recording ts2 M = { M with
        nextId := M.nextId + 2,
        pipes := (M.nextId,
            { gst := GstState.Playing, src := some M.frame_data,
              output := some (mainVideoName ts2) })
          :: (M.nextId + 1,
            { gst := GstState.Playing, src := some M.pip_frame_data,
              output := some (pipVideoName ts2) })
          :: M.pipes,
        recording_pipeline := some M.nextId,
        recording_files :=
          some (mainVideoName ts2, pipVideoName ts2, finalVideoName ts2),
        is_recording := true } := by
      simp [start_recording, hsp]
    rw [he]
    refine ⟨rfl, rfl, rfl, lookup_cons_self _ _ _, ?_⟩
    intro p hp
    rw [lookup_cons_of_ne _ _ (Nat.ne_of_gt hp),
      lookup_cons_of_ne _ _ (show M.nextId + 1 ≠ p by omega)]

theorem stop_recording_facts (st : AppState) (p : Nat) (i : PipeInfo)
    (hpipe : st.recording_pipeline = some p)
    (hfiles : ∃ r, st.recording_files = some r)
    (hi : lookupPipe p st.pipes = some i) :
    (stop_recording st).nextId = st.nextId ∧
    (stop_recording st).frame_data = st.frame_data ∧
    (stop_recording st).pip_frame_data = st.pip_frame_data ∧
    (stop_recording st).show_pip = st.show_pip ∧
    (stop_recording st).is_recording = false ∧
    (∃ j, lookupPipe p (stop_recording st).pipes = some j ∧
      j.gst = GstState.Null) := by
  obtain ⟨r, hr⟩ := hfiles
  cases hq : st.pip_pipeline with
  | none =>
    have he : stop_recording st = { st with
        pipes := setPipe st.pipes p GstState.Null,
        recording_pipeline := none,
        pip_pipeline := none,
        recording_files := none,
        is_recording := false } := by
      simp [stop_recording, hr, hpipe, hq]
    rw [he]
    exact ⟨rfl, rfl, rfl, rfl, rfl,
      ⟨{ i with gst := GstState.Null }, lookup_setPipe_self _ hi, rfl⟩⟩
  | some q =>
    have he : stop_recording st = { st with
        pipes := setPipe (setPipe st.pipes p GstState.Null) q GstState.Null,
        recording_pipeline := none,
        pip_pipeline := none,
        recording_files := none,
        is_recording := false } := by
      simp [stop_recording, hr, hpipe, hq]
    rw [he]
    exact ⟨rfl, rfl, rfl, rfl, rfl, lookup_setPipe_null q hi⟩

theorem restart_core (st : AppState) (ts1 ts2 : String) (p : Nat)
    (hpipe : st.recording_pipeline = some p)
    (hlt : p < st.nextId)
    (hreg : ∃ i, lookupPipe p st.pipes = some i)
    (hfiles : ∃ r, st.recording_files = some r)
    (hts : ts1 ≠ ts2) :
    RestartOutcome st (start_recording ts2 (stop_recording st)) p ts1 ts2 := by
  obtain ⟨i, hi⟩ := hreg
  obtain ⟨hn, hfd, hpfd, hsp, hirec, j, hj, hjg⟩ :=
    stop_recording_facts st p i hpipe hfiles hi
  obtain ⟨f1, f2, f3, f4, f5⟩ := start_recording_facts (stop_recording st) ts2
  refine ⟨⟨j, ?_, hjg⟩, f1, fun h => hts (mainVideoName_inj h).symm, f2, ?_, ?_⟩
  · rw [f5 p (by omega)]
    exact hj
  · rw [f3, hn]
  · refine ⟨⟨GstState.Playing, some st.frame_data,
      some (mainVideoName ts2)⟩, ?_, rfl, rfl, rfl⟩
    have h4 := f4
    rw [hn, hfd] at h4
    exact h4

/-- Claim C7: toggling microphone enablement or switching microphones while
recording performs a full stop of the recording session (the old recording
pipeline is driven to `Null`, finalizing its file) followed by a restart
whose freshly generated filenames are distinct from the old ones (given the
new timestamp differs, which the source assumes of its second-granularity
timestamps), with a new recording pipeline playing into the new main file
from the same frame buffer. -/
theorem mic_change_mid_recording_restarts
    (st : AppState) (idx : Nat) (e : Bool) (ts1 ts2 : String) (p : Nat)
    (hrec : st.is_recording = true)
    (hfiles : st.recording_files =
      some (mainVideoName ts1, pipVideoName ts1, finalVideoName ts1))
    (hpipe : st.recording_pipeline = some p)
    (hlt : p < st.nextId)
    (hreg : ∃ i, lookupPipe p st.pipes = some i)
    (hts : ts1 ≠ ts2)
    (he : e = !st.is_mic_enabled) :
    RestartOutcome st (switch_mic idx ts2 st) p ts1 ts2 ∧
    RestartOutcome st (set_mic_enabled e ts2 st) p ts1 ts2 := by
  constructor
  · have hsw : switch_mic idx ts2 st =
        start_recording ts2
          (stop_recording { st with current_mic_idx := some idx }) := by
      simp [switch_mic, hrec]
    rw [hsw]
    exact restart_core { st with current_mic_idx := some idx } ts1 ts2 p
      hpipe hlt hreg ⟨_, hfiles⟩ hts
  · subst he
    have hcond : (!st.is_mic_enabled != st.is_mic_enabled) = true := by
      cases st.is_mic_enabled <;> rfl
    have hsw : set_mic_enabled (!st.is_mic_enabled) ts2 st =
        start_recording ts2
          (stop_recording { st with is_mic_enabled := !st.is_mic_enabled }) := by
      simp [set_mic_enabled, hcond, hrec]
    rw [hsw]
    exact restart_core { st with is_mic_enabled := !st.is_mic_enabled } ts1 ts2 p
      hpipe hlt hreg ⟨_, hfiles⟩ hts

theorem mic_change_mid_recording_restarts_witness :
    RestartOutcome stRec (switch_mic 1 "20260101_000001" stRec) 2
      "20260101_000000" "20260101_000001" :=
  (mic_change_mid_recording_restarts stRec 1 false "20260101_000000"
    "20260101_000001" 2 rfl rfl rfl (by decide)
    ⟨{ gst := GstState.Playing, src := some 100,
       output := some (mainVideoName "20260101_000000") }, rfl⟩
    (by decide) rfl).1

/-- Claim C3 (counterexample): calling `switch_source` with device index 5
when the device list has 3 entries (2 displays) fails in `setup_gstreamer`;
afterwards the slot still holds the previous — now stopped — session
(same pipeline, same frame buffer, same dimensions arc), not an empty slot,
and no error reaches the caller (`switch_source` returns `()`). -/
theorem switch_source_failure_keeps_stale_session :
    (switch_source stExample 1 5 true).pipeline = stExample.pipeline ∧
    (switch_source stExample 1 5 true).frame_data = stExample.frame_data ∧
    (switch_source stExample 1 5 true).dimensions = stExample.dimensions ∧
    lookupPipe (switch_source stExample 1 5 true).pipeline
        (switch_source stExample 1 5 true).pipes =
      some { gst := GstState.Null, src := none, output := none } := by
  refine ⟨rfl, rfl, rfl, rfl⟩

/-- Claim C3 (amended): `switch_source` always stops the current pipeline
first; when `setup_gstreamer` succeeds it installs a fresh playing pipeline
together with a fresh frame buffer, fresh dimensions and the new device
index; when it fails, the stale stopped session and its frame buffer and
dimensions remain installed and no error is surfaced (the function's state
transition is total). -/
theorem switch_source_stop_then_replace_or_keep
    (st : AppState) (numDisplays device_idx : Nat) (backendOk : Bool)
    (hp : st.pipeline < st.nextId)
    (hfd : st.frame_data < st.nextId)
    (hdim : st.dimensions < st.nextId)
    (hreg : ∃ i, lookupPipe st.pipeline st.pipes = some i) :
    (∃ i, lookupPipe st.pipeline
        (switch_source st numDisplays device_idx backendOk).pipes = some i ∧
      i.gst = GstState.Null) ∧
    (setup_gstreamer_ok numDisplays device_idx backendOk = true →
      (switch_source st numDisplays device_idx backendOk).pipeline =
        st.nextId ∧
      (switch_source st numDisplays device_idx backendOk).pipeline ≠
        st.pipeline ∧
      (switch_source st numDisplays device_idx backendOk).frame_data ≠
        st.frame_data ∧
      (switch_source st numDisplays device_idx backendOk).dimensions ≠
        st.dimensions ∧
      (switch_source st numDisplays device_idx backendOk).current_device_idx =
        some device_idx ∧
      ∃ j, lookupPipe
          (switch_source st numDisplays device_idx backendOk).pipeline
          (switch_source st numDisplays device_idx backendOk).pipes =
        some j ∧ j.gst = GstState.Playing) ∧
    (setup_gstreamer_ok numDisplays device_idx backendOk = false →
      (switch_source st numDisplays device_idx backendOk).pipeline =
        st.pipeline ∧
      (switch_source st numDisplays device_idx backendOk).frame_data =
        st.frame_data ∧
      (switch_source st numDisplays device_idx backendOk).dimensions =
        st.dimensions ∧
      (switch_source st numDisplays device_idx backendOk).current_device_idx =
        st.current_device_idx) := by
  obtain ⟨i, hi⟩ := hreg
  cases hok : setup_gstreamer_ok numDisplays device_idx backendOk with
  | true =>
    have hpl : (switch_source st numDisplays device_idx backendOk).pipeline =
        st.nextId := by
      simp [switch_source, hok]
    have hpipes : (switch_source st numDisplays device_idx backendOk).pipes =
        (st.nextId, ⟨GstState.Playing, none, none⟩)
          :: setPipe st.pipes st.pipeline GstState.Null := by
      simp [switch_source, hok]
    have hfd2 : (switch_source st numDisplays device_idx backendOk).frame_data =
        st.nextId + 1 := by
      simp [switch_source, hok]
    have hdm2 : (switch_source st numDisplays device_idx backendOk).dimensions =
        st.nextId + 2 := by
      simp [switch_source, hok]
    have hcd : (switch_source st numDisplays
        device_idx backendOk).current_device_idx = some device_idx := by
      simp [switch_source, hok]
    refine ⟨?_, fun hh => ⟨hpl, ?_, ?_, ?_, hcd, ?_⟩,
      fun hh => absurd hh (by decide)⟩
    · refine ⟨{ i with gst := GstState.Null }, ?_, rfl⟩
      rw [hpipes, lookup_cons_of_ne _ _ (Nat.ne_of_gt hp)]
      exact lookup_setPipe_self _ hi
    · rw [hpl]
      exact Nat.ne_of_gt hp
    · rw [hfd2]
      omega
    · rw [hdm2]
      omega
    · refine ⟨⟨GstState.Playing, none, none⟩, ?_, rfl⟩
      rw [hpl, hpipes]
      exact lookup_cons_self _ _ _
  | false =>
    have hpl : (switch_source st numDisplays device_idx backendOk).pipeline =
        st.pipeline := by
      simp [switch_source, hok]
    have hpipes : (switch_source st numDisplays device_idx backendOk).pipes =
        setPipe st.pipes st.pipeline GstState.Null := by
      simp [switch_source, hok]
    have hfd2 : (switch_source st numDisplays device_idx backendOk).frame_data =
        st.frame_data := by
      simp [switch_source, hok]
    have hdm2 : (switch_source st numDisplays device_idx backendOk).dimensions =
        st.dimensions := by
      simp [switch_source, hok]
    have hcd : (switch_source st numDisplays
        device_idx backendOk).current_device_idx = st.current_device_idx := by
      simp [switch_source, hok]
    refine ⟨?_, fun hh => absurd hh (by decide),
      fun hh => ⟨hpl, hfd2, hdm2, hcd⟩⟩
    refine ⟨{ i with gst := GstState.Null }, ?_, rfl⟩
    rw [hpipes]
    exact lookup_setPipe_self _ hi

theorem switch_source_stop_then_replace_or_keep_witness :
    (switch_source stExample 1 0 true).pipeline = stExample.nextId ∧
    (switch_source stExample 1 0 true).frame_data ≠ stExample.frame_data :=
  ⟨((switch_source_stop_then_replace_or_keep stExample 1 0 true (by decide)
      (by decide) (by decide) ⟨_, rfl⟩).2.1 rfl).1,
   (((switch_source_stop_then_replace_or_keep stExample 1 0 true (by decide)
      (by decide) (by decide) ⟨_, rfl⟩).2.1 rfl).2.2).1⟩

theorem get_pixel_read_eq {f : List Nat} {idx : Nat} {a b c d : Nat}
    (ha : f.get? idx = some a) (hb : f.get? (idx + 1) = some b)
    (hc : f.get? (idx + 2) = some c) (hd : f.get? (idx + 3) = some d) :
    get_pixel_read f idx = some (some [a, b, c, d]) := by
  unfold get_pixel_read
  rw [ha, hb, hc, hd]

/-- Claim C10: whenever any present frame has length `width*height*4`,
`get_pixel` is total (it never takes the indexing-panic path): it returns
`none` exactly when the coordinates are out of bounds or no frame is
present, and otherwise returns `some` of the 4 bytes at offset
`(y*width + x)*4`, each read being in bounds. -/
theorem get_pixel_total (width height : Int) (frame : Option (List Nat))
    (x y : Int)
    (hinv : ∀ f, frame = some f → f.length = (width * height * 4).toNat) :
    (x < 0 ∨ width ≤ x ∨ y < 0 ∨ height ≤ y ∨ frame = none →
      get_pixel width height frame x y = some none) ∧
    (∀ f, frame = some f → 0 ≤ x → x < width → 0 ≤ y → y < height →
      ∃ a b c d,
        get_pixel width height frame x y = some (some [a, b, c, d]) ∧
        f.get? ((y * width + x) * 4).toNat = some a ∧
        f.get? (((y * width + x) * 4).toNat + 1) = some b ∧
        f.get? (((y * width + x) * 4).toNat + 2) = some c ∧
        f.get? (((y * width + x) * 4).toNat + 3) = some d) := by
  constructor
  · intro h
    by_cases hc : x < 0 ∨ width ≤ x ∨ y < 0 ∨ height ≤ y
    · unfold get_pixel
      rw [if_pos hc]
    · have hf : frame = none := by tauto
      subst hf
      unfold get_pixel
      rw [if_neg hc]
  · intro f hf hx0 hxw hy0 hyh
    subst hf
    have hinv' : f.length = (width * height * 4).toNat := hinv f rfl
    have hcond : ¬ (x < 0 ∨ width ≤ x ∨ y < 0 ∨ height ≤ y) := by
      push_neg
      exact ⟨hx0, hxw, hy0, hyh⟩
    have hw : 0 < width := lt_of_le_of_lt hx0 hxw
    have hyw : 0 ≤ y * width := mul_nonneg hy0 hw.le
    have h0 : 0 ≤ (y * width + x) * 4 := by
      have hnn : 0 ≤ y * width + x := by linarith
      linarith
    have hb : (y * width + x) * 4 + 3 < width * height * 4 := by
      have h1 : y * width ≤ (height - 1) * width :=
        mul_le_mul_of_nonneg_right (by omega) hw.le
      nlinarith [h1]
    have hfix : get_pixel width height (some f) x y =
        get_pixel_read f ((y * width + x) * 4).toNat := by
      unfold get_pixel
      rw [if_neg hcond]
    generalize hA : (y * width + x) * 4 = A at h0 hb hfix ⊢
    generalize hB : width * height * 4 = B at hb hinv'
    have hlen3 : A.toNat + 3 < f.length := by
      rw [hinv']
      omega
    obtain ⟨a, ha⟩ : ∃ v, f.get? A.toNat = some v := by
      cases hgk : f.get? A.toNat with
      | some v => exact ⟨v, rfl⟩
      | none => exact absurd (List.get?_eq_none.mp hgk) (by omega)
    obtain ⟨b2, hb2⟩ : ∃ v, f.get? (A.toNat + 1) = some v := by
      cases hgk : f.get? (A.toNat + 1) with
      | some v => exact ⟨v, rfl⟩
      | none => exact absurd (List.get?_eq_none.mp hgk) (by omega)
    obtain ⟨c2, hc2⟩ : ∃ v, f.get? (A.toNat + 2) = some v := by
      cases hgk : f.get? (A.toNat + 2) with
      | some v => exact ⟨v, rfl⟩
      | none => exact absurd (List.get?_eq_none.mp hgk) (by omega)
    obtain ⟨d2, hd2⟩ : ∃ v, f.get? (A.toNat + 3) = some v := by
      cases hgk : f.get? (A.toNat + 3) with
      | some v => exact ⟨v, rfl⟩
      | none => exact absurd (List.get?_eq_none.mp hgk) (by omega)
    refine ⟨a, b2, c2, d2, ?_, ha, hb2, hc2, hd2⟩
    rw [hfix]
    exact get_pixel_read_eq ha hb2 hc2 hd2

theorem get_pixel_total_witness :
    ∃ a b c d,
      get_pixel 2 1 (some [10, 11, 12, 13, 14, 15, 16, 17]) 1 0 =
        some (some [a, b, c, d]) ∧
      [10, 11, 12, 13, 14, 15, 16, 17].get? (((0 : Int) * 2 + 1) * 4).toNat =
        some a ∧
      [10, 11, 12, 13, 14, 15, 16, 17].get?
        ((((0 : Int) * 2 + 1) * 4).toNat + 1) = some b ∧
      [10, 11, 12, 13, 14, 15, 16, 17].get?
        ((((0 : Int) * 2 + 1) * 4).toNat + 2) = some c ∧
      [10, 11, 12, 13, 14, 15, 16, 17].get?
        ((((0 : Int) * 2 + 1) * 4).toNat + 3) = some d :=
  (get_pixel_total 2 1 (some [10, 11, 12, 13, 14, 15, 16, 17]) 1 0
    (fun f hf => by cases hf; rfl)).2
    [10, 11, 12, 13, 14, 15, 16, 17] rfl (by decide) (by decide) (by decide)
    (by decide)
